import Mathlib

/-!
Verification of the geospatial feature-extraction core of the
women-travel-safety repository (files fetch_features.py and
predict_safety.py), as a shallow embedding in Lean 4.

Modelling conventions, stated once here:

* An Overpass element is a record of tags (an association list with unique
  keys) and four optional coordinates: the direct lat/lon of a node and
  the lat/lon of the "center" object attached to ways.  JSON numbers are
  modelled as rationals: every IEEE double is a rational number.

* Network interaction is modelled by passing the parsed provider response
  as an argument of type Option (List OsmElement): none stands for a
  requests.RequestException (transport failure, caught by the except
  block), some els for a successful response whose "elements" array
  parsed to els.

* The transcendental haversine distance is passed to the aggregators as a
  function parameter dist (lat lon lat2 lon2), exactly where the Python
  calls haversine(lat, lon, lat2, lon2); the haversine formula itself is
  embedded separately over the reals, where its algebraic properties are
  provable.

* Python truthiness is modelled explicitly: a float is truthy iff it is
  nonzero, a string iff it is nonempty, None is falsy.  The expression
  `el.get("lat") or el.get("center", {}).get("lat")` from
  get_safety_features is the function orCoord below; the guard
  `if lat2 and lon2` from get_nearest_amenity is the nonzero test in
  nearestStep.

* Python's float("inf") "not seen yet" sentinel for a running minimum is
  modelled as none of an Option; the string sentinel "Not Available" in a
  returned value is likewise modelled as none.

* round(x, 2) is modelled as decimal round-half-to-even at two decimal
  places (round2 below), the rounding mode Python's round implements.
-/

/-! ### Tag-key and tag-value string constants of the source -/

def sHighway : String := "highway"
def sShop : String := "shop"
def sAmenity : String := "amenity"
def sEmpty : String := ""
def vStreetLamp : String := "street_lamp"
def vBusStop : String := "bus_stop"
def vHospital : String := "hospital"
def vPolice : String := "police"
def vPrimary : String := "primary"
def vSecondary : String := "secondary"
def vTertiary : String := "tertiary"
def vResidential : String := "residential"
def vConvenience : String := "convenience"

/-! ### Data model -/

/-- One element of the "elements" array of an Overpass JSON response:
its tag mapping and its optional direct and center coordinates. -/
structure OsmElement where
  tags : List (String × String)
  lat : Option ℚ
  lon : Option ℚ
  center_lat : Option ℚ
  center_lon : Option ℚ
deriving DecidableEq

/-- Dictionary lookup tags.get(k): the value of the first pair whose key
is k, if any. -/
def tagGet (tags : List (String × String)) (k : String) : Option String :=
  (tags.find? (fun p => p.1 == k)).map Prod.snd

/-- Truthiness of an optional string: present and nonempty
(Python `if tags.get(...)`). -/
def truthyStr : Option String → Bool
  | none => false
  | some s => decide (s ≠ sEmpty)

/-- Python `a or b` on optional floats: a if a is truthy (present and
nonzero), else b. -/
def orCoord (a b : Option ℚ) : Option ℚ :=
  match a with
  | some x => if x ≠ 0 then some x else b
  | none => b

/-- Python min(m, d) where m starts as float("inf"), modelled with none
as the infinity sentinel. -/
def optMin (m : Option ℚ) (d : ℚ) : ℚ :=
  match m with
  | none => d
  | some m0 => min m0 d

/-- Round-half-to-even of a rational to an integer (the rounding mode of
Python's built-in round). -/
def roundHalfEven (x : ℚ) : ℤ :=
  if x - ⌊x⌋ < 1 / 2 then ⌊x⌋
  else if 1 / 2 < x - ⌊x⌋ then ⌊x⌋ + 1
  else if ⌊x⌋ % 2 = 0 then ⌊x⌋ else ⌊x⌋ + 1

/-- Python round(x, 2): round-half-to-even at two decimal places. -/
def round2 (x : ℚ) : ℚ :=
  (roundHalfEven (x * 100) : ℚ) / 100

/-! ### haversine, embedded over the reals -/

/-- math.radians: degrees to radians. -/
noncomputable def radians (x : ℝ) : ℝ := x * Real.pi / 180

/-- math.atan2(y, x), the two-argument arctangent (C semantics, which
Python's math.atan2 follows; signed zeros and NaN excepted). -/
noncomputable def atan2 (y x : ℝ) : ℝ :=
  if 0 < x then Real.arctan (y / x)
  else if x < 0 ∧ 0 ≤ y then Real.arctan (y / x) + Real.pi
  else if x < 0 ∧ y < 0 then Real.arctan (y / x) - Real.pi
  else if x = 0 ∧ 0 < y then Real.pi / 2
  else if x = 0 ∧ y < 0 then -(Real.pi / 2)
  else 0

/-- The intermediate quantity a of the haversine function:
sin(dphi/2)^2 + cos(phi1)*cos(phi2)*sin(dlambda/2)^2. -/
noncomputable def hav_a (lat1 lon1 lat2 lon2 : ℝ) : ℝ :=
  Real.sin (radians (lat2 - lat1) / 2) ^ 2 +
    Real.cos (radians lat1) * Real.cos (radians lat2) *
      Real.sin (radians (lon2 - lon1) / 2) ^ 2

/-- haversine(lat1, lon1, lat2, lon2) of fetch_features.py:
2 * R * atan2(sqrt(a), sqrt(1 - a)) with R = 6371000. -/
noncomputable def haversine (lat1 lon1 lat2 lon2 : ℝ) : ℝ :=
  2 * 6371000 *
    atan2 (Real.sqrt (hav_a lat1 lon1 lat2 lon2))
      (Real.sqrt (1 - hav_a lat1 lon1 lat2 lon2))

/-! ### get_nearest_amenity of fetch_features.py -/

/-- One iteration of the loop of get_nearest_amenity: if both el["lat"]
and el["lon"] are truthy (present and nonzero), fold the element's
distance into the running minimum, else leave it unchanged. -/
def nearestStep (dist : ℚ → ℚ → ℚ → ℚ → ℚ) (lat lon : ℚ)
    (m : Option ℚ) (el : OsmElement) : Option ℚ :=
  match el.lat, el.lon with
  | some la, some lo =>
      if la ≠ 0 ∧ lo ≠ 0 then some (optMin m (dist lat lon la lo)) else m
  | _, _ => m

/-- get_nearest_amenity: on transport failure (resp = none) return the
"Not Available" sentinel; otherwise reduce the elements to the running
minimum distance and return it rounded to 2 decimals, or the sentinel if
the minimum is still the infinity sentinel. -/
def get_nearest_amenity (dist : ℚ → ℚ → ℚ → ℚ → ℚ) (lat lon : ℚ)
    (resp : Option (List OsmElement)) : Option ℚ :=
  match resp with
  | none => none
  | some els =>
      match els.foldl (nearestStep dist lat lon) none with
      | none => none
      | some m => some (round2 m)

/-! ### get_safety_features of fetch_features.py -/

/-- The mutable counters of the aggregation loop of get_safety_features.
hospital_distance uses none for the float("inf") initial sentinel. -/
structure SafetyState where
  street_lighting : ℕ
  nearby_shops : ℕ
  bus_stop_count : ℕ
  hospital_distance : Option ℚ
  poi_count : ℕ
  road_type_score : ℕ
deriving DecidableEq

/-- The initial counter values of get_safety_features. -/
def initSafety : SafetyState :=
  { street_lighting := 0, nearby_shops := 0, bus_stop_count := 0,
    hospital_distance := none, poi_count := 0, road_type_score := 1 }

/-- The street-lamp if block of the aggregation loop:
street_lighting += 1 when tags.get("highway") == "street_lamp". -/
def stepLamp (tags : List (String × String)) (s : SafetyState) : SafetyState :=
  if tagGet tags sHighway = some vStreetLamp then
    { s with street_lighting := s.street_lighting + 1 } else s

/-- The shop if block: nearby_shops += 1 when tags.get("shop") is
truthy. -/
def stepShop (tags : List (String × String)) (s : SafetyState) : SafetyState :=
  if truthyStr (tagGet tags sShop) then
    { s with nearby_shops := s.nearby_shops + 1 } else s

/-- The bus-stop if block: bus_stop_count += 1 when
tags.get("highway") == "bus_stop". -/
def stepBus (tags : List (String × String)) (s : SafetyState) : SafetyState :=
  if tagGet tags sHighway = some vBusStop then
    { s with bus_stop_count := s.bus_stop_count + 1 } else s

/-- The hospital if block: hospital_distance = min(hospital_distance, d)
when tags.get("amenity") == "hospital". -/
def stepHosp (d : ℚ) (tags : List (String × String)) (s : SafetyState) :
    SafetyState :=
  if tagGet tags sAmenity = some vHospital then
    { s with hospital_distance := some (optMin s.hospital_distance d) } else s

/-- The poi if block: poi_count += 1 when tags.get("amenity") is
truthy. -/
def stepPoi (tags : List (String × String)) (s : SafetyState) : SafetyState :=
  if truthyStr (tagGet tags sAmenity) then
    { s with poi_count := s.poi_count + 1 } else s

/-- The road-class if block, guarded by a truthy tags.get("highway"),
with the unguarded assignments road_type_score = 3 and
road_type_score = 2 of the source. -/
def stepRoad (tags : List (String × String)) (s : SafetyState) : SafetyState :=
  match tagGet tags sHighway with
  | some hw =>
      if hw ≠ sEmpty then
        if hw = vPrimary ∨ hw = vSecondary then
          { s with road_type_score := 3 }
        else if hw = vTertiary ∨ hw = vResidential then
          { s with road_type_score := 2 }
        else s
      else s
  | none => s

/-- One iteration of the aggregation loop of get_safety_features: the
sequential reassignments of the Python body are the composition of the
six if blocks above.  lat2/lon2 come from the direct coordinate or-else
the center coordinate (Python or, hence truthiness); the element is
skipped when either is None. -/
def safetyStep (dist : ℚ → ℚ → ℚ → ℚ → ℚ) (lat lon : ℚ)
    (s : SafetyState) (el : OsmElement) : SafetyState :=
  match orCoord el.lat el.center_lat, orCoord el.lon el.center_lon with
  | some la, some lo =>
      stepRoad el.tags
        (stepPoi el.tags
          (stepHosp (dist lat lon la lo) el.tags
            (stepBus el.tags (stepShop el.tags (stepLamp el.tags s)))))
  | _, _ => s

/-- The returned feature dictionary of get_safety_features.
hospital_distance is Option ℚ with none for "Not Available". -/
structure FeatureRecord where
  travel_hour : ℕ
  is_night : Bool
  is_weekend : Bool
  street_lighting : ℕ
  road_type_score : ℕ
  nearby_shops : ℕ
  bus_stop_count : ℕ
  poi_count : ℕ
  commercial_density : ℚ
  hospital_distance : Option ℚ
deriving DecidableEq

/-- get_safety_features: on transport failure (resp = none) return None;
otherwise fold the aggregation loop over the elements and assemble the
feature dictionary, with commercial_density = nearby_shops / 10 and
hospital_distance rounded to 2 decimals or "Not Available". -/
def get_safety_features (dist : ℚ → ℚ → ℚ → ℚ → ℚ) (lat lon : ℚ)
    (travel_hour : ℕ) (is_night is_weekend : Bool)
    (resp : Option (List OsmElement)) : Option FeatureRecord :=
  match resp with
  | none => none
  | some els =>
      let s := els.foldl (safetyStep dist lat lon) initSafety
      some { travel_hour := travel_hour, is_night := is_night,
             is_weekend := is_weekend,
             street_lighting := s.street_lighting,
             road_type_score := s.road_type_score,
             nearby_shops := s.nearby_shops,
             bus_stop_count := s.bus_stop_count,
             poi_count := s.poi_count,
             commercial_density := (s.nearby_shops : ℚ) / 10,
             hospital_distance :=
               match s.hospital_distance with
               | none => none
               | some m => some (round2 m) }

/-! ### get_live_features of predict_safety.py -/

/-- One iteration of the classification loop of get_live_features: an
if/elif/elif chain over (police, hospital, lamp) counters. -/
def liveStep (s : ℕ × ℕ × ℕ) (el : OsmElement) : ℕ × ℕ × ℕ :=
  if tagGet el.tags sAmenity = some vPolice then (s.1 + 1, s.2.1, s.2.2)
  else if tagGet el.tags sAmenity = some vHospital then (s.1, s.2.1 + 1, s.2.2)
  else if tagGet el.tags sHighway = some vStreetLamp then (s.1, s.2.1, s.2.2 + 1)
  else s

/-- The counters of get_live_features after the loop, before the
street-lamp fallback is applied. -/
def observedCounts (els : List OsmElement) : ℕ × ℕ × ℕ :=
  els.foldl liveStep (0, 0, 0)

/-- get_live_features: the bare except returns (0, 0, 0) on transport
failure; on success the loop counters are returned, with l replaced by
the hardcoded default 5 when zero lamps were counted. -/
def get_live_features (resp : Option (List OsmElement)) : ℕ × ℕ × ℕ :=
  match resp with
  | none => (0, 0, 0)
  | some els =>
      let r := observedCounts els
      (r.1, r.2.1, if r.2.2 = 0 then 5 else r.2.2)

/-! ### Concrete fixtures and distance functions used by the theorems -/

/-- A distance function that is constantly 0. -/
def dist0 : ℚ → ℚ → ℚ → ℚ → ℚ := fun _ _ _ _ => 0

/-- A distance function that is constantly 300. -/
def dist300 : ℚ → ℚ → ℚ → ℚ → ℚ := fun _ _ _ _ => 300

/-- A distance function that is constantly 100. -/
def dist100 : ℚ → ℚ → ℚ → ℚ → ℚ := fun _ _ _ _ => 100

/-- A way tagged highway=primary, with only a center coordinate. -/
def wayPrimary : OsmElement :=
  { tags := [(sHighway, vPrimary)], lat := none, lon := none,
    center_lat := some 10, center_lon := some 10 }

/-- A way tagged highway=residential, with only a center coordinate. -/
def wayResidential : OsmElement :=
  { tags := [(sHighway, vResidential)], lat := none, lon := none,
    center_lat := some 11, center_lon := some 11 }

/-- A node tagged both amenity=police and highway=street_lamp. -/
def elPoliceLamp : OsmElement :=
  { tags := [(sAmenity, vPolice), (sHighway, vStreetLamp)], lat := some 1,
    lon := some 1, center_lat := none, center_lon := none }

/-- Truthiness of the position of an element as get_nearest_amenity
tests it: lat and lon both present and nonzero. -/
def truthyPos (el : OsmElement) : Bool :=
  match el.lat, el.lon with
  | some la, some lo => decide (la ≠ 0 ∧ lo ≠ 0)
  | _, _ => false

/-- The distances get_nearest_amenity actually folds over: one per
element whose lat and lon are both present and nonzero. -/
def resolvedDistances (dist : ℚ → ℚ → ℚ → ℚ → ℚ) (lat lon : ℚ)
    (els : List OsmElement) : List ℚ :=
  els.filterMap (fun el =>
    match el.lat, el.lon with
    | some la, some lo =>
        if la ≠ 0 ∧ lo ≠ 0 then some (dist lat lon la lo) else none
    | _, _ => none)

/-- The minimum of a list of rationals, none on the empty list. -/
def listMin : List ℚ → Option ℚ
  | [] => none
  | x :: xs => some (xs.foldl min x)

/-- An element counts toward poi_count iff it survives the coordinate
skip (lat2 and lon2 both non-None after the or-else with the center
coordinates) and carries a truthy amenity tag. -/
def poiCounted (el : OsmElement) : Bool :=
  (orCoord el.lat el.center_lat).isSome &&
    (orCoord el.lon el.center_lon).isSome &&
    truthyStr (tagGet el.tags sAmenity)

/-- A police node sitting exactly on the equator: lat 0, lon 5.  Its
position is fully defined, but lat 0 is falsy in Python. -/
def elNullIsland : OsmElement :=
  { tags := [(sAmenity, vPolice)], lat := some 0, lon := some 5,
    center_lat := none, center_lon := none }

/-- Nodes at lat 1, 2, 3 (lon 1), given distances 800, 200, 1200 by
distC5. -/
def elD800 : OsmElement :=
  { tags := [(sAmenity, vPolice)], lat := some 1, lon := some 1,
    center_lat := none, center_lon := none }

/-- Node mapped to distance 200 by distC5. -/
def elD200 : OsmElement :=
  { tags := [(sAmenity, vPolice)], lat := some 2, lon := some 1,
    center_lat := none, center_lon := none }

/-- Node mapped to distance 1200 by distC5. -/
def elD1200 : OsmElement :=
  { tags := [(sAmenity, vPolice)], lat := some 3, lon := some 1,
    center_lat := none, center_lon := none }

/-- A distance function giving the three fixture nodes distances 800,
200 and 1200. -/
def distC5 : ℚ → ℚ → ℚ → ℚ → ℚ :=
  fun _ _ la _ => if la = 1 then 800 else if la = 2 then 200 else 1200

/-- A distance function that is constantly 1/3: its rounding to two
decimals is not the identity. -/
def distThird : ℚ → ℚ → ℚ → ℚ → ℚ := fun _ _ _ _ => 1 / 3

/-- A resolvable node whose amenity tag is present but empty — falsy in
Python, so it does not reach poi_count. -/
def elEmptyAmenity : OsmElement :=
  { tags := [(sAmenity, sEmpty)], lat := some 1, lon := some 1,
    center_lat := none, center_lon := none }

/-- Fixture shop nodes for the C4 aggregation fixture. -/
def elShop1 : OsmElement :=
  { tags := [(sShop, vConvenience)], lat := some 1, lon := some 1,
    center_lat := none, center_lon := none }

/-- Second fixture shop node. -/
def elShop2 : OsmElement :=
  { tags := [(sShop, vConvenience)], lat := some 2, lon := some 1,
    center_lat := none, center_lon := none }

/-- Third fixture shop node. -/
def elShop3 : OsmElement :=
  { tags := [(sShop, vConvenience)], lat := some 3, lon := some 1,
    center_lat := none, center_lon := none }

/-- First fixture street-lamp node. -/
def elLamp1 : OsmElement :=
  { tags := [(sHighway, vStreetLamp)], lat := some 4, lon := some 1,
    center_lat := none, center_lon := none }

/-- Second fixture street-lamp node. -/
def elLamp2 : OsmElement :=
  { tags := [(sHighway, vStreetLamp)], lat := some 5, lon := some 1,
    center_lat := none, center_lon := none }

/-- Fixture hospital node, at distance 300 under dist300. -/
def elHosp : OsmElement :=
  { tags := [(sAmenity, vHospital)], lat := some 6, lon := some 1,
    center_lat := none, center_lon := none }

/-- Fixture bus-stop node. -/
def elBus : OsmElement :=
  { tags := [(sHighway, vBusStop)], lat := some 7, lon := some 1,
    center_lat := none, center_lon := none }

/-- The C4 fixture: 3 shops, 2 street lamps, 1 hospital at 300 m, 1 bus
stop. -/
def fixtureC4 : List OsmElement :=
  [elShop1, elShop2, elShop3, elLamp1, elLamp2, elHosp, elBus]

/-- An element with neither direct nor center coordinates. -/
def elBare : OsmElement :=
  { tags := [(sAmenity, vHospital)], lat := none, lon := none,
    center_lat := none, center_lon := none }

/-! ### C6 -/

/-- C6: when the provider responds successfully with an empty entity
result set, get_safety_features returns a record with all counts 0,
road_type_score 1, hospital_distance "Not Available" (none) and
commercial_density 0. -/
theorem C6_empty_result_set (dist : ℚ → ℚ → ℚ → ℚ → ℚ) (lat lon : ℚ)
    (th : ℕ) (n w : Bool) :
    get_safety_features dist lat lon th n w (some []) =
      some { travel_hour := th, is_night := n, is_weekend := w,
             street_lighting := 0, road_type_score := 1, nearby_shops := 0,
             bus_stop_count := 0, poi_count := 0, commercial_density := 0,
             hospital_distance := none } := by
  simp [get_safety_features, initSafety]

/-! ### C1 -/

/-- C1 (falsity of the claim at the failing input): processing a
primary-tagged way and then a residential-tagged way yields
road_type_score 2, while the reverse order yields 3 — the final score is
the class of the last road-tagged element, not the order-independent
maximum the specification states. -/
theorem C1_road_score_order_dependent :
    (get_safety_features dist0 0 0 0 false false
        (some [wayPrimary, wayResidential])).map FeatureRecord.road_type_score
      = some 2 ∧
    (get_safety_features dist0 0 0 0 false false
        (some [wayResidential, wayPrimary])).map FeatureRecord.road_type_score
      = some 3 := by
  constructor <;> rfl

/-! ### C3 -/

/-- C3 (counterexample): a transport failure makes get_live_features
return the all-zero triple (0, 0, 0) — a zero-valued count record, not
an explicit failure value — so the claim does not hold for both
aggregation implementations. -/
theorem C3_live_failure_is_zero_record :
    get_live_features none = (0, 0, 0) := by
  rfl

/-- C3 (amended): a provider transport failure makes get_safety_features
abort the aggregation and return the explicit failure value None (never
a feature record, in particular never a zero-valued one); the duplicate
get_live_features, by contrast, converts a transport failure into the
all-zero triple (0, 0, 0). -/
theorem C3_transport_failure_behaviour :
    (∀ (dist : ℚ → ℚ → ℚ → ℚ → ℚ) (lat lon : ℚ) (th : ℕ) (n w : Bool),
      get_safety_features dist lat lon th n w none = none) ∧
    get_live_features none = (0, 0, 0) := by
  exact ⟨fun _ _ _ _ _ _ => rfl, rfl⟩

/-! ### C7 -/

/-- C7: on a successful query, when the classification loop of
get_live_features counted zero street lamps, the returned lamp count is
the hardcoded default 5; and the returned lamp count of a successful
query is never 0. -/
theorem C7_lamp_fallback (els : List OsmElement) :
    ((observedCounts els).2.2 = 0 →
      (get_live_features (some els)).2.2 = 5) ∧
    (get_live_features (some els)).2.2 ≠ 0 := by
  unfold get_live_features
  constructor
  · intro h
    simp [h]
  · by_cases h : (observedCounts els).2.2 = 0 <;> simp [h]

/-- C7 witness: on the concrete empty result set, zero lamps are
counted, the returned lamp count is 5, and it is nonzero. -/
theorem C7_lamp_fallback_witness :
    (get_live_features (some [])).2.2 = 5 ∧
    (get_live_features (some [])).2.2 ≠ 0 :=
  ⟨(C7_lamp_fallback []).1 (by decide), (C7_lamp_fallback []).2⟩

/-! ### C10 -/

/-- C10: the if/elif/elif classification of get_live_features is
mutually exclusive with priority police, then hospital, then street
lamp: each element increments at most one of the three counters, an
amenity=police element increments only the police count even when also
tagged highway=street_lamp, and so on. -/
theorem C10_live_classification_exclusive (el : OsmElement) (p h l : ℕ) :
    (tagGet el.tags sAmenity = some vPolice →
      liveStep (p, h, l) el = (p + 1, h, l)) ∧
    (tagGet el.tags sAmenity ≠ some vPolice →
      tagGet el.tags sAmenity = some vHospital →
      liveStep (p, h, l) el = (p, h + 1, l)) ∧
    (tagGet el.tags sAmenity ≠ some vPolice →
      tagGet el.tags sAmenity ≠ some vHospital →
      tagGet el.tags sHighway = some vStreetLamp →
      liveStep (p, h, l) el = (p, h, l + 1)) ∧
    (liveStep (p, h, l) el = (p + 1, h, l) ∨
      liveStep (p, h, l) el = (p, h + 1, l) ∨
      liveStep (p, h, l) el = (p, h, l + 1) ∨
      liveStep (p, h, l) el = (p, h, l)) := by
  unfold liveStep
  refine ⟨fun h1 => by simp [h1],
    fun h1 h2 => by simp [h2, show vHospital ≠ vPolice by decide],
    fun h1 h2 h3 => by simp [h1, h2, h3], ?_⟩
  split_ifs <;> simp

/-- C10 witness: the concrete element tagged both amenity=police and
highway=street_lamp increments only the police counter. -/
theorem C10_live_classification_exclusive_witness :
    liveStep (0, 0, 0) elPoliceLamp = (0 + 1, 0, 0) :=
  (C10_live_classification_exclusive elPoliceLamp 0 0 0).1 (by decide)

/-! ### C9 -/

/-- The intermediate quantity a of haversine is symmetric in its two
coordinate arguments. -/
theorem hav_a_symm (lat1 lon1 lat2 lon2 : ℝ) :
    hav_a lat1 lon1 lat2 lon2 = hav_a lat2 lon2 lat1 lon1 := by
  unfold hav_a
  have h1 : radians (lat1 - lat2) = -(radians (lat2 - lat1)) := by
    unfold radians; ring
  have h2 : radians (lon1 - lon2) = -(radians (lon2 - lon1)) := by
    unfold radians; ring
  rw [h1, h2, neg_div, neg_div, Real.sin_neg, Real.sin_neg, neg_sq, neg_sq]
  ring

/-- The intermediate quantity a of haversine vanishes on a pair of equal
coordinates. -/
theorem hav_a_self (lat lon : ℝ) : hav_a lat lon lat lon = 0 := by
  unfold hav_a radians
  simp

/-- C9: the embedded haversine distance is symmetric in its two
coordinate arguments, and the distance from a coordinate to itself is
exactly 0. -/
theorem C9_haversine_symm_and_self_zero :
    (∀ lat1 lon1 lat2 lon2 : ℝ,
      haversine lat1 lon1 lat2 lon2 = haversine lat2 lon2 lat1 lon1) ∧
    (∀ lat lon : ℝ, haversine lat lon lat lon = 0) := by
  constructor
  · intro lat1 lon1 lat2 lon2
    unfold haversine
    rw [hav_a_symm]
  · intro lat lon
    unfold haversine
    rw [hav_a_self]
    norm_num [atan2, Real.arctan_zero]

/-! ### C2 -/

/-- One loop iteration of get_nearest_amenity leaves the running minimum
at the infinity sentinel exactly when it was there already and the
element's position is not truthy. -/
theorem nearestStep_eq_none_iff (dist : ℚ → ℚ → ℚ → ℚ → ℚ) (lat lon : ℚ)
    (m : Option ℚ) (el : OsmElement) :
    nearestStep dist lat lon m el = none ↔
      m = none ∧ truthyPos el = false := by
  obtain ⟨tags, elat, elon, eclat, eclon⟩ := el
  cases elat <;> cases elon <;> simp only [nearestStep, truthyPos]
  · simp
  · simp
  · simp
  · split_ifs with h <;> simp [h]

/-- The loop of get_nearest_amenity ends at the infinity sentinel
exactly when it started there and no element has a truthy position. -/
theorem nearest_fold_eq_none_iff (dist : ℚ → ℚ → ℚ → ℚ → ℚ)
    (lat lon : ℚ) (els : List OsmElement) : ∀ m : Option ℚ,
    els.foldl (nearestStep dist lat lon) m = none ↔
      m = none ∧ ∀ el ∈ els, truthyPos el = false := by
  induction els with
  | nil => simp
  | cons e es ih =>
      intro m
      rw [List.foldl_cons, ih, nearestStep_eq_none_iff]
      simp only [List.forall_mem_cons]
      tauto

/-- One loop iteration of get_nearest_amenity preserves nonnegativity of
the running minimum, provided the distance function is nonnegative. -/
theorem nearestStep_nonneg (dist : ℚ → ℚ → ℚ → ℚ → ℚ) (lat lon : ℚ)
    (hd : ∀ la lo, 0 ≤ dist lat lon la lo) (m : Option ℚ)
    (el : OsmElement) (hm : ∀ q, m = some q → 0 ≤ q) :
    ∀ q, nearestStep dist lat lon m el = some q → 0 ≤ q := by
  intro q hq
  obtain ⟨tags, elat, elon, eclat, eclon⟩ := el
  cases elat <;> cases elon <;> simp only [nearestStep] at hq
  · exact hm q hq
  · exact hm q hq
  · exact hm q hq
  · split_ifs at hq with h
    · simp only [Option.some_inj] at hq
      subst hq
      cases m with
      | none => exact hd _ _
      | some m0 => exact le_min (hm m0 rfl) (hd _ _)
    · exact hm q hq

/-- The loop of get_nearest_amenity preserves nonnegativity of the
running minimum, provided the distance function is nonnegative. -/
theorem nearest_fold_nonneg (dist : ℚ → ℚ → ℚ → ℚ → ℚ) (lat lon : ℚ)
    (hd : ∀ la lo, 0 ≤ dist lat lon la lo) (els : List OsmElement) :
    ∀ m : Option ℚ, (∀ q, m = some q → 0 ≤ q) →
    ∀ q, els.foldl (nearestStep dist lat lon) m = some q → 0 ≤ q := by
  induction els with
  | nil => intro m hm q hq; exact hm q hq
  | cons e es ih =>
      intro m hm q hq
      rw [List.foldl_cons] at hq
      exact ih (nearestStep dist lat lon m e)
        (nearestStep_nonneg dist lat lon hd m e hm) q hq

/-- Rounding to two decimals preserves nonnegativity. -/
theorem round2_nonneg (x : ℚ) (hx : 0 ≤ x) : 0 ≤ round2 x := by
  have h100 : (0 : ℚ) ≤ x * 100 := by positivity
  have hf : (0 : ℤ) ≤ ⌊x * 100⌋ := Int.floor_nonneg.mpr h100
  unfold round2 roundHalfEven
  split_ifs <;>
    refine div_nonneg ?_ (by norm_num) <;>
    exact_mod_cast le_trans hf (by omega)

/-- C2 (counterexample): an element at latitude exactly 0 has a fully
defined position, yet get_nearest_amenity over a result set containing
only that element returns the "Not Available" sentinel, because the
Python truthiness guard `if lat2 and lon2` treats 0.0 as missing. -/
theorem C2_null_island_skipped :
    elNullIsland.lat = some 0 ∧ elNullIsland.lon = some 5 ∧
    get_nearest_amenity dist100 10 10 (some [elNullIsland]) = none := by
  refine ⟨rfl, rfl, ?_⟩
  rfl

/-- C2 (amended): get_nearest_amenity over a successful result set
returns the "Not Available" sentinel iff no returned element has a
truthy position (lat and lon both present and nonzero — not merely
defined); and when the distance function is nonnegative, any numeric
result is nonnegative. -/
theorem C2_sentinel_iff_no_truthy_position (dist : ℚ → ℚ → ℚ → ℚ → ℚ)
    (lat lon : ℚ) (els : List OsmElement)
    (hd : ∀ la lo, 0 ≤ dist lat lon la lo) :
    (get_nearest_amenity dist lat lon (some els) = none ↔
      ∀ el ∈ els, truthyPos el = false) ∧
    (∀ q, get_nearest_amenity dist lat lon (some els) = some q → 0 ≤ q) := by
  constructor
  · rcases hfold : els.foldl (nearestStep dist lat lon) none with _ | m
    · simp only [get_nearest_amenity, hfold]
      simpa using ((nearest_fold_eq_none_iff dist lat lon els none).mp hfold).2
    · simp only [get_nearest_amenity, hfold, reduceCtorEq, false_iff]
      intro hall
      have hnone : els.foldl (nearestStep dist lat lon) none = none :=
        (nearest_fold_eq_none_iff dist lat lon els none).mpr ⟨rfl, hall⟩
      rw [hfold] at hnone
      cases hnone
  · intro q hq
    simp only [get_nearest_amenity] at hq
    rcases hfold : els.foldl (nearestStep dist lat lon) none with _ | m <;>
      simp only [hfold] at hq
    · cases hq
    · simp only [Option.some_inj] at hq
      subst hq
      exact round2_nonneg m
        (nearest_fold_nonneg dist lat lon hd els none (by simp) m hfold)

/-- C2 witness: at the concrete one-element set holding only the
null-island police node and the constant distance 100, the sentinel is
returned (that element's position is not truthy), and every numeric
result would be nonnegative. -/
theorem C2_sentinel_iff_no_truthy_position_witness :
    ((get_nearest_amenity dist100 10 10 (some [elNullIsland]) = none ↔
      ∀ el ∈ [elNullIsland], truthyPos el = false) ∧
    (∀ q, get_nearest_amenity dist100 10 10 (some [elNullIsland]) = some q →
      0 ≤ q)) :=
  C2_sentinel_iff_no_truthy_position dist100 10 10 [elNullIsland]
    (fun _ _ => by norm_num [dist100])

/-! ### C5 -/

/-- The loop of get_nearest_amenity is the fold of the option-valued
minimum over exactly the distances of the truthy-position elements. -/
theorem nearest_fold_eq_resolved (dist : ℚ → ℚ → ℚ → ℚ → ℚ)
    (lat lon : ℚ) (els : List OsmElement) : ∀ acc : Option ℚ,
    els.foldl (nearestStep dist lat lon) acc =
      (resolvedDistances dist lat lon els).foldl
        (fun m d => some (optMin m d)) acc := by
  induction els with
  | nil => intro acc; rfl
  | cons e es ih =>
      intro acc
      rw [List.foldl_cons]
      unfold resolvedDistances
      rw [List.filterMap_cons]
      obtain ⟨tags, elat, elon, eclat, eclon⟩ := e
      cases elat <;> cases elon <;>
        simp only [nearestStep] <;>
        try exact ih acc
      split_ifs with h
      · simp only [List.foldl_cons]
        exact ih _
      · exact ih acc

/-- Folding the option-valued minimum from a seen value computes the
plain minimum fold. -/
theorem optMin_fold_some (ds : List ℚ) : ∀ m : ℚ,
    ds.foldl (fun m d => some (optMin m d)) (some m) =
      some (ds.foldl min m) := by
  induction ds with
  | nil => intro m; rfl
  | cons d ds ih =>
      intro m
      rw [List.foldl_cons, List.foldl_cons]
      simpa [optMin] using ih (min m d)

/-- Folding the option-valued minimum from the infinity sentinel
computes listMin. -/
theorem optMin_fold_none (ds : List ℚ) :
    ds.foldl (fun m d => some (optMin m d)) none = listMin ds := by
  cases ds with
  | nil => rfl
  | cons d ds =>
      rw [List.foldl_cons, listMin]
      simpa [optMin] using optMin_fold_some ds d

/-- C5 (counterexample): over the one-element set whose element lies at
distance 1/3, get_nearest_amenity returns 33/100, the two-decimal
rounding of the minimum, which differs from the minimum itself. -/
theorem C5_rounding_not_identity :
    distThird 0 0 1 1 = 1 / 3 ∧
    get_nearest_amenity distThird 0 0 (some [elD800]) = some (33 / 100) ∧
    (33 / 100 : ℚ) ≠ 1 / 3 := by
  refine ⟨rfl, ?_, by norm_num⟩
  norm_num [get_nearest_amenity, nearestStep, elD800, distThird, optMin,
    round2, roundHalfEven]

/-- C5 (amended): over a successful result set, get_nearest_amenity
returns the two-decimal rounding of the minimum distance over the
elements with truthy positions (the sentinel when there are none); in
particular over the fixture set at distances 800, 200 and 1200 it
returns exactly 200. -/
theorem C5_returns_rounded_min (dist : ℚ → ℚ → ℚ → ℚ → ℚ)
    (lat lon : ℚ) (els : List OsmElement) :
    get_nearest_amenity dist lat lon (some els) =
      Option.map round2 (listMin (resolvedDistances dist lat lon els)) ∧
    get_nearest_amenity distC5 0 0 (some [elD800, elD200, elD1200]) =
      some 200 := by
  constructor
  · rcases hmin : listMin (resolvedDistances dist lat lon els) with _ | m
    · have : els.foldl (nearestStep dist lat lon) none = none := by
        rw [nearest_fold_eq_resolved, optMin_fold_none, hmin]
      simp [get_nearest_amenity, this, hmin]
    · have : els.foldl (nearestStep dist lat lon) none = some m := by
        rw [nearest_fold_eq_resolved, optMin_fold_none, hmin]
      simp [get_nearest_amenity, this, hmin]
  · norm_num [get_nearest_amenity, nearestStep, elD800, elD200, elD1200,
      distC5, optMin, round2, roundHalfEven]



/-! ### C4 -/

/-- The street-lamp if block leaves poi_count unchanged. -/
theorem stepLamp_poi (tags : List (String × String)) (s : SafetyState) :
    (stepLamp tags s).poi_count = s.poi_count := by
  unfold stepLamp
  split_ifs <;> rfl

/-- The shop if block leaves poi_count unchanged. -/
theorem stepShop_poi (tags : List (String × String)) (s : SafetyState) :
    (stepShop tags s).poi_count = s.poi_count := by
  unfold stepShop
  split_ifs <;> rfl

/-- The bus-stop if block leaves poi_count unchanged. -/
theorem stepBus_poi (tags : List (String × String)) (s : SafetyState) :
    (stepBus tags s).poi_count = s.poi_count := by
  unfold stepBus
  split_ifs <;> rfl

/-- The hospital if block leaves poi_count unchanged. -/
theorem stepHosp_poi (d : ℚ) (tags : List (String × String))
    (s : SafetyState) : (stepHosp d tags s).poi_count = s.poi_count := by
  unfold stepHosp
  split_ifs <;> rfl

/-- The poi if block increments poi_count exactly when the amenity tag
is truthy. -/
theorem stepPoi_poi (tags : List (String × String)) (s : SafetyState) :
    (stepPoi tags s).poi_count =
      s.poi_count + (if truthyStr (tagGet tags sAmenity) then 1 else 0) := by
  unfold stepPoi
  split_ifs <;> rfl

/-- The road-class if block leaves poi_count unchanged. -/
theorem stepRoad_poi (tags : List (String × String)) (s : SafetyState) :
    (stepRoad tags s).poi_count = s.poi_count := by
  cases h : tagGet tags sHighway with
  | none => simp [stepRoad, h]
  | some hw =>
      simp only [stepRoad, h]
      split_ifs <;> rfl

/-- One iteration of the aggregation loop increments poi_count by one
exactly when the element survives the coordinate skip and carries a
truthy amenity tag, and leaves it unchanged otherwise. -/
theorem safetyStep_poi (dist : ℚ → ℚ → ℚ → ℚ → ℚ) (lat lon : ℚ)
    (s : SafetyState) (el : OsmElement) :
    (safetyStep dist lat lon s el).poi_count =
      s.poi_count + (if poiCounted el then 1 else 0) := by
  unfold safetyStep
  cases h1 : orCoord el.lat el.center_lat with
  | none => simp [poiCounted, h1]
  | some la =>
      cases h2 : orCoord el.lon el.center_lon with
      | none => simp [poiCounted, h1, h2]
      | some lo =>
          rw [stepRoad_poi, stepPoi_poi, stepHosp_poi, stepBus_poi,
            stepShop_poi, stepLamp_poi]
          simp [poiCounted, h1, h2]

/-- Over a whole result set, the aggregation loop leaves poi_count at
its initial value plus the number of elements that survive the
coordinate skip and carry a truthy amenity tag. -/
theorem safety_fold_poi (dist : ℚ → ℚ → ℚ → ℚ → ℚ) (lat lon : ℚ)
    (els : List OsmElement) : ∀ s : SafetyState,
    (els.foldl (safetyStep dist lat lon) s).poi_count =
      s.poi_count + els.countP poiCounted := by
  induction els with
  | nil => simp
  | cons e es ih =>
      intro s
      rw [List.foldl_cons, ih, safetyStep_poi, List.countP_cons]
      by_cases hpe : poiCounted e <;> (simp [hpe]; try omega)

/-- C4 (counterexample): an element whose amenity tag is present with
the empty-string value, at a fully resolvable position, is not counted
in poi_count (the Python truthiness test rejects the empty string), so
poi_count over a one-element set holding it is 0, not 1. -/
theorem C4_empty_amenity_not_counted :
    tagGet elEmptyAmenity.tags sAmenity = some sEmpty ∧
    elEmptyAmenity.lat = some 1 ∧ elEmptyAmenity.lon = some 1 ∧
    (get_safety_features dist0 0 0 0 false false
        (some [elEmptyAmenity])).map FeatureRecord.poi_count = some 0 := by
  refine ⟨rfl, rfl, rfl, ?_⟩
  rfl

/-- C4 (amended): poi_count is incremented exactly once per element
that survives the coordinate skip and carries an amenity tag with a
non-empty value (once per element, not once per matched category); and
over the fixture of 3 shops, 2 street lamps, 1 hospital at 300 m and 1
bus stop, the aggregation yields nearby_shops 3, street_lighting 2,
hospital_distance 300, bus_stop_count 1, commercial_density 3/10 and
poi_count 1. -/
theorem C4_poi_once_per_entity (dist : ℚ → ℚ → ℚ → ℚ → ℚ)
    (lat lon : ℚ) (th : ℕ) (n w : Bool) (els : List OsmElement) :
    (get_safety_features dist lat lon th n w (some els)).map
        FeatureRecord.poi_count = some (els.countP poiCounted) ∧
    get_safety_features dist300 0 0 9 false false (some fixtureC4) =
      some { travel_hour := 9, is_night := false, is_weekend := false,
             street_lighting := 2, road_type_score := 1, nearby_shops := 3,
             bus_stop_count := 1, poi_count := 1,
             commercial_density := 3 / 10,
             hospital_distance := some 300 } := by
  constructor
  · simp only [get_safety_features, Option.map_some, Option.some_inj]
    rw [safety_fold_poi]
    simp [initSafety]
  · have hfold : fixtureC4.foldl (safetyStep dist300 0 0) initSafety =
        { street_lighting := 2, nearby_shops := 3, bus_stop_count := 1,
          hospital_distance := some 300, poi_count := 1,
          road_type_score := 1 } := by rfl
    simp only [get_safety_features, hfold]
    norm_num [round2, roundHalfEven]

/-! ### C8 -/

/-- An element with neither direct nor center coordinates is skipped by
the aggregation loop: the state is unchanged. -/
theorem safetyStep_skip (dist : ℚ → ℚ → ℚ → ℚ → ℚ) (lat lon : ℚ)
    (s : SafetyState) (el : OsmElement) (h1 : el.lat = none)
    (h2 : el.lon = none) (h3 : el.center_lat = none)
    (h4 : el.center_lon = none) :
    safetyStep dist lat lon s el = s := by
  unfold safetyStep
  rw [h1, h2, h3, h4]
  rfl

/-- C8: an element missing both the direct and the center coordinate is
skipped from the reduction — the aggregation result over a set
containing it equals the result over the set with it removed — and its
presence never makes the aggregation fail: the result is still a
record. -/
theorem C8_unresolvable_skipped (dist : ℚ → ℚ → ℚ → ℚ → ℚ)
    (lat lon : ℚ) (th : ℕ) (n w : Bool) (pre post : List OsmElement)
    (el : OsmElement) (h1 : el.lat = none) (h2 : el.lon = none)
    (h3 : el.center_lat = none) (h4 : el.center_lon = none) :
    get_safety_features dist lat lon th n w (some (pre ++ el :: post)) =
      get_safety_features dist lat lon th n w (some (pre ++ post)) ∧
    ∃ r, get_safety_features dist lat lon th n w (some (pre ++ el :: post)) =
      some r := by
  have hfold : (pre ++ el :: post).foldl (safetyStep dist lat lon) initSafety
      = (pre ++ post).foldl (safetyStep dist lat lon) initSafety := by
    rw [List.foldl_append, List.foldl_append, List.foldl_cons,
      safetyStep_skip dist lat lon _ el h1 h2 h3 h4]
  constructor
  · simp only [get_safety_features, hfold]
  · exact ⟨_, rfl⟩

/-- C8 witness: at the concrete set holding the bare element followed by
a shop node, the result equals the result without the bare element, and
is a record. -/
theorem C8_unresolvable_skipped_witness :
    (get_safety_features dist0 0 0 0 false false
        (some ([] ++ elBare :: [elShop1])) =
      get_safety_features dist0 0 0 0 false false (some ([] ++ [elShop1]))) ∧
    ∃ r, get_safety_features dist0 0 0 0 false false
        (some ([] ++ elBare :: [elShop1])) = some r :=
  C8_unresolvable_skipped dist0 0 0 0 false false [] [elShop1] elBare
    rfl rfl rfl rfl
